import Mathlib

/-!
Shallow embedding of the `llm-parser-filter` repository
(`src/llm_parser_filter/core.py` and `src/llm_parser_filter/text_conversion.py`)
and proofs about its specification.

Python exceptions are modelled as `PyError` values carrying the exception
type name and its message; fallible Python code returns `Except PyError _`.
Bytes are modelled as `List Nat` with values below 256.  Floats from the
source (temperature, rate-limiter settings) are modelled as `Rat`.
-/

/-- A Python exception value: its type name and its message. -/
structure PyError where
  etype : String
  msg : String
deriving DecidableEq, Repr

/-- Process environment relevant to the library: the two environment
variables read by `core.py` (`OPENAI_API_KEY`, `LLM_TOKEN_LOG_FILE`),
each `none` when unset. -/
structure Env where
  openaiKey : Option String
  llmTokenLogFile : Option String
deriving DecidableEq, Repr

/-- Python truthiness of an optional string: `False` for `None` and
for the empty string (this is what `if not api_key:` tests). -/
def strTruthy : Option String → Bool
  | none => false
  | some s => s ≠ ""

/-- Whether an `OPENAI_API_KEY` credential is available in the environment,
in the sense tested by `create_llm` (`if not api_key: raise`). -/
def openaiKeyAvailable (env : Env) : Bool :=
  strTruthy env.openaiKey

/-- Model of the module-level constant `DEFAULT_LOG_FILE` in `core.py`. -/
def DEFAULT_LOG_FILE : String := "llm_token_usage.log"

/-- Python `a or b` on strings with truthiness: keeps `a` when it is a
non-empty string, otherwise falls through to `b`. -/
def orTruthy (a : Option String) (b : String) : String :=
  match a with
  | none => b
  | some s => if s = "" then b else s

/-- Model of the `langchain_core` `InMemoryRateLimiter` configuration
(the fields passed at construction in `core.py`). -/
structure InMemoryRateLimiter where
  requestsPerSecond : Rat
  checkEveryNSeconds : Rat
  maxBucketSize : Nat
deriving DecidableEq, Repr

/-- Model of the module-level shared `rate_limiter` in `core.py`:
`requests_per_second=500`, `check_every_n_seconds=0.1`, `max_bucket_size=5`. -/
def rate_limiter : InMemoryRateLimiter :=
  { requestsPerSecond := 500
    checkEveryNSeconds := (1 : Rat) / 10
    maxBucketSize := 5 }

/-- Model of the `TokenUsageLogger` callback handler configuration from
`core.py`: the function label and resolved log-file path. -/
structure TokenUsageLogger where
  function_name : String
  log_file : String
deriving DecidableEq, Repr

/-- Model of `TokenUsageLogger.__init__`: resolves the log file as
`log_file or os.getenv('LLM_TOKEN_LOG_FILE') or DEFAULT_LOG_FILE`. -/
def TokenUsageLogger.init (function_name : String) (log_file : Option String)
    (env : Env) : TokenUsageLogger :=
  { function_name := function_name
    log_file := orTruthy log_file (orTruthy env.llmTokenLogFile DEFAULT_LOG_FILE) }

/-- Model of a configured chat-model client as constructed by `create_llm`:
`ChatOpenAI` carries an explicit API key and the shared rate limiter;
`ChatAnthropic` is constructed with callbacks only. -/
structure LLM where
  provider : String
  model : String
  temperature : Rat
  callbacks : List TokenUsageLogger
  apiKey : Option String
  rateLimiter : Option InMemoryRateLimiter
deriving DecidableEq, Repr

/-- Modelled from the spec: `langchain` `BaseChatModel` (library code, not
in `src/`) acquires a token from its configured rate limiter before each
underlying request exactly when one was attached at construction. -/
def acquiresRateLimiter (llm : LLM) : Bool :=
  llm.rateLimiter.isSome

/-- Model of `create_llm` from `core.py`: validates the provider and the
OpenAI credential, then returns the configured client.  All raised
exceptions are Python `ValueError`s. -/
def create_llm (model provider : String) (temperature : Rat)
    (function_name : String) (log_file : Option String) (env : Env) :
    Except PyError LLM :=
  let callbacks := [TokenUsageLogger.init function_name log_file env]
  if provider = "openai" then
    if strTruthy env.openaiKey then
      .ok { provider := "openai", model := model, temperature := temperature
            callbacks := callbacks, apiKey := env.openaiKey
            rateLimiter := some rate_limiter }
    else
      .error { etype := "ValueError"
               msg := "OPENAI_API_KEY environment variable is not set" }
  else if provider = "anthropic" then
    .ok { provider := "anthropic", model := model, temperature := temperature
          callbacks := callbacks, apiKey := none, rateLimiter := none }
  else
    .error { etype := "ValueError", msg := "Unsupported provider: " ++ provider }

/-- The configuration returned by `get_parser` (`core.py`): the closure
`parse` captures the instruction prompt and the configured client. -/
structure ParserClosure where
  promptText : String
  llm : LLM
deriving DecidableEq, Repr

/-- The configuration returned by `get_filter` (`core.py`). -/
structure FilterClosure where
  promptText : String
  llm : LLM
deriving DecidableEq, Repr

/-- Model of `get_parser` from `core.py` (source name `get_parser`):
eagerly calls `create_llm` with function label "parser" and returns the
closure configuration; any `create_llm` error propagates unchanged. -/
def getParser (prompt model provider : String) (temperature : Rat)
    (log_file : Option String) (env : Env) : Except PyError ParserClosure :=
  (create_llm model provider temperature "parser" log_file env).map
    (fun llm => { promptText := prompt, llm := llm })

/-- Model of `get_filter` from `core.py`: eagerly calls `create_llm` with
function label "filter". -/
def get_filter (prompt model provider : String) (temperature : Rat)
    (log_file : Option String) (env : Env) : Except PyError FilterClosure :=
  (create_llm model provider temperature "filter" log_file env).map
    (fun llm => { promptText := prompt, llm := llm })

/-- The configuration returned by `get_html_parser` (`core.py`): wraps the
standard parser closure. -/
structure HtmlParserClosure where
  inner : ParserClosure
deriving DecidableEq, Repr

/-- The configuration returned by `get_pdf_parser` (`core.py`). -/
structure PdfParserClosure where
  inner : ParserClosure
deriving DecidableEq, Repr

/-- Model of `get_html_parser` from `core.py` (source name
`get_html_parser`): delegates construction to the standard parser factory. -/
def getHtmlParser (prompt model provider : String) (temperature : Rat)
    (log_file : Option String) (env : Env) : Except PyError HtmlParserClosure :=
  (getParser prompt model provider temperature log_file env).map
    (fun p => { inner := p })

/-- Model of `get_pdf_parser` from `core.py` (source name
`get_pdf_parser`): delegates construction to the standard parser factory. -/
def getPdfParser (prompt model provider : String) (temperature : Rat)
    (log_file : Option String) (env : Env) : Except PyError PdfParserClosure :=
  (getParser prompt model provider temperature log_file env).map
    (fun p => { inner := p })

/-- The configurations on which construction fails: provider outside the
two supported ones, or provider "openai" without an available credential. -/
def configFails (provider : String) (env : Env) : Bool :=
  (provider ≠ "openai" && provider ≠ "anthropic") ||
    (provider = "openai" && !openaiKeyAvailable env)

/-- A construction-time configuration error: a `ValueError` with one of the
two messages raised by `create_llm`. -/
def isConfigError (provider : String) (e : PyError) : Prop :=
  e.etype = "ValueError" ∧
    (e.msg = "OPENAI_API_KEY environment variable is not set" ∨
      e.msg = "Unsupported provider: " ++ provider)

/-- Characterization of `create_llm`: success exactly when the
configuration is valid, and a configuration error otherwise. -/
theorem create_llm_characterization (model provider : String) (t : Rat)
    (fn : String) (lf : Option String) (env : Env) :
    ((∃ llm, create_llm model provider t fn lf env = .ok llm) ↔
      configFails provider env = false) ∧
    (configFails provider env = true →
      ∃ e, create_llm model provider t fn lf env = .error e ∧
        isConfigError provider e) := by
  unfold create_llm configFails openaiKeyAvailable
  by_cases hop : provider = "openai"
  · subst hop
    cases hkey : strTruthy env.openaiKey <;>
      simp [hkey, isConfigError]
  · by_cases han : provider = "anthropic"
    · subst han
      simp [isConfigError]
    · simp [hop, han, isConfigError]

/-- Lifting success through `Except.map`. -/
theorem except_map_ok_iff {α β : Type} (f : α → β) (x : Except PyError α) :
    (∃ b, x.map f = .ok b) ↔ (∃ a, x = .ok a) := by
  cases x <;> simp [Except.map]

/-- Lifting errors through `Except.map`. -/
theorem except_map_error_iff {α β : Type} (f : α → β) (x : Except PyError α)
    (e : PyError) : x.map f = .error e ↔ x = .error e := by
  cases x <;> simp [Except.map]

/-- C1: each of the four factories fails at construction with a
configuration error (a `ValueError` naming the unsupported provider or the
missing `OPENAI_API_KEY`) exactly when the provider is not one of
"openai"/"anthropic", or is "openai" with no available key; every other
configuration yields a closure.  Construction in the model performs no
remote call: validation happens inside `create_llm`, which each factory
runs eagerly before returning its closure. -/
theorem factories_validate_configuration (prompt model provider : String)
    (t : Rat) (lf : Option String) (env : Env) :
    ((∃ c, getParser prompt model provider t lf env = .ok c) ↔
      configFails provider env = false) ∧
    ((∃ c, get_filter prompt model provider t lf env = .ok c) ↔
      configFails provider env = false) ∧
    ((∃ c, getHtmlParser prompt model provider t lf env = .ok c) ↔
      configFails provider env = false) ∧
    ((∃ c, getPdfParser prompt model provider t lf env = .ok c) ↔
      configFails provider env = false) ∧
    (configFails provider env = true →
      ∃ e, isConfigError provider e ∧
        getParser prompt model provider t lf env = .error e ∧
        get_filter prompt model provider t lf env = .error e ∧
        getHtmlParser prompt model provider t lf env = .error e ∧
        getPdfParser prompt model provider t lf env = .error e) := by
  have hchar := create_llm_characterization model provider t "parser" lf env
  have hcharF := create_llm_characterization model provider t "filter" lf env
  have hp_ok : (∃ c, getParser prompt model provider t lf env = .ok c) ↔
      configFails provider env = false := by
    unfold getParser; rw [except_map_ok_iff]; exact hchar.1
  refine ⟨hp_ok, ?_, ?_, ?_, ?_⟩
  · unfold get_filter; rw [except_map_ok_iff]; exact hcharF.1
  · unfold getHtmlParser; rw [except_map_ok_iff]; exact hp_ok
  · unfold getPdfParser; rw [except_map_ok_iff]; exact hp_ok
  · intro hfail
    obtain ⟨e, he, hcfg⟩ := hchar.2 hfail
    obtain ⟨e2, he2, hcfg2⟩ := hcharF.2 hfail
    have hsame : e2 = e := by
      unfold create_llm at he he2
      by_cases hop : provider = "openai" <;>
        by_cases han : provider = "anthropic" <;>
        simp only [hop, han, if_true, if_false, reduceIte] at he he2 <;>
        first
          | (cases hkey : strTruthy env.openaiKey <;>
              simp only [hkey, if_true, if_false, reduceIte] at he he2 <;>
              simp_all)
          | simp_all
    have hp_err : getParser prompt model provider t lf env = .error e := by
      unfold getParser; rw [except_map_error_iff]; exact he
    refine ⟨e, hcfg, hp_err, ?_, ?_, ?_⟩
    · unfold get_filter; rw [except_map_error_iff]; rw [hsame] at he2; exact he2
    · unfold getHtmlParser; rw [except_map_error_iff]; exact hp_err
    · unfold getPdfParser; rw [except_map_error_iff]; exact hp_err

/-- Witness for C1 at a concrete bad configuration: provider "grok" with an
empty environment is rejected by all four factories with a `ValueError`
naming the unsupported provider. -/
theorem factories_validate_configuration_witness :
    configFails "grok" ⟨none, none⟩ = true ∧
    (∃ e, isConfigError "grok" e ∧
      getParser "p" "m" "grok" 0 none ⟨none, none⟩ = .error e ∧
      get_filter "p" "m" "grok" 0 none ⟨none, none⟩ = .error e ∧
      getHtmlParser "p" "m" "grok" 0 none ⟨none, none⟩ = .error e ∧
      getPdfParser "p" "m" "grok" 0 none ⟨none, none⟩ = .error e) :=
  ⟨by decide,
    (factories_validate_configuration "p" "m" "grok" 0 none ⟨none, none⟩).2.2.2.2
      (by decide)⟩

/-- One line of the newline-delimited JSON usage log: either a token-usage
record or an error record, with the fields written by `TokenUsageLogger`
(the `timestamp` field from the source is real time and is not modelled). -/
inductive Record where
  | usage (function : String) (model : String)
      (prompt_tokens completion_tokens total_tokens : Nat)
  | error (function : String) (error : String) (error_type : String)
deriving DecidableEq, Repr

/-- The state of the logging side channel: the appended lines of the usage
log file, and the diagnostic channel (stdout prints) receiving records whose
write failed. -/
structure LogState where
  lines : List Record
  diagnostics : List Record
deriving DecidableEq, Repr

/-- Model of `TokenUsageLogger.log_to_file`: attempts to append one record
to the log file; `writeFails` models the `open`/`write` call raising.  A
failed write is caught, reported to the diagnostic channel (the two `print`
calls) and discarded; the function itself never raises. -/
def log_to_file (writeFails : Bool) (data : Record) (st : LogState) : LogState :=
  if writeFails then
    { st with diagnostics := st.diagnostics ++ [data] }
  else
    { st with lines := st.lines ++ [data] }

/-- The `token_usage` entry of a provider response's `llm_output`,
with each count possibly absent. -/
structure TokenUsage where
  prompt_tokens : Option Nat
  completion_tokens : Option Nat
  total_tokens : Option Nat
deriving DecidableEq, Repr

/-- The `llm_output` payload of an `LLMResult`, with each key possibly
absent. -/
structure LLMOutput where
  model_name : Option String
  token_usage : Option TokenUsage
deriving DecidableEq, Repr

/-- Python truthiness of the `llm_output` attribute: `False` for `None` and
for an empty dict (modelled as both keys absent). -/
def llmOutputTruthy : Option LLMOutput → Bool
  | none => false
  | some o => !(o.model_name.isNone && o.token_usage.isNone)

/-- The token-usage record built by `TokenUsageLogger.on_llm_end`: absent
counts default to 0 and an absent model name defaults to "unknown". -/
def usageRecordOf (fn : String) (o : LLMOutput) : Record :=
  let tu := o.token_usage.getD { prompt_tokens := none, completion_tokens := none
                                 total_tokens := none }
  .usage fn (o.model_name.getD "unknown") (tu.prompt_tokens.getD 0)
    (tu.completion_tokens.getD 0) (tu.total_tokens.getD 0)

/-- Model of `TokenUsageLogger.on_llm_end`: writes a token-usage record only
when the response carries a truthy `llm_output`. -/
def on_llm_end (writeFails : Bool) (fn : String) (out : Option LLMOutput)
    (st : LogState) : LogState :=
  match out with
  | none => st
  | some o =>
    if llmOutputTruthy (some o) then log_to_file writeFails (usageRecordOf fn o) st
    else st

/-- Model of `TokenUsageLogger.on_llm_error`: writes an error record holding
the error's message and type name. -/
def on_llm_error (writeFails : Bool) (fn : String) (e : PyError)
    (st : LogState) : LogState :=
  log_to_file writeFails (.error fn e.msg e.etype) st

/-- A JSON value (the result of langchain's `JsonOutputParser`). -/
inductive Json where
  | null
  | bool (b : Bool)
  | num (lexeme : String)
  | str (s : String)
  | arr (elems : List Json)
  | obj (members : List (String × Json))

/-- Skip JSON whitespace. -/
def skipWs : List Char → List Char
  | [] => []
  | c :: cs =>
    if c == Char.ofNat 32 || c == Char.ofNat 9 || c == Char.ofNat 10 ||
        c == Char.ofNat 13 then
      skipWs cs
    else c :: cs

/-- Translate a JSON escape character to the character it denotes (the
common single-character escapes; others stand for themselves). -/
def unescapeChar (c : Char) : Char :=
  if c = 'n' then Char.ofNat 10
  else if c = 't' then Char.ofNat 9
  else if c = 'r' then Char.ofNat 13
  else if c = 'b' then Char.ofNat 8
  else if c = 'f' then Char.ofNat 12
  else c

/-- Scan the body of a JSON string literal after the opening quote; `esc`
records that the previous character was a backslash. -/
def scanStringLit (esc : Bool) (acc : List Char) :
    List Char → Option (String × List Char)
  | [] => none
  | c :: cs =>
    if esc then scanStringLit false (unescapeChar c :: acc) cs
    else if c = Char.ofNat 34 then some (acc.reverse.asString, cs)
    else if c = Char.ofNat 92 then scanStringLit true acc cs
    else scanStringLit false (c :: acc) cs

/-- Characters that may appear in a JSON number lexeme. -/
def isNumChar (c : Char) : Bool :=
  c.isDigit || c == '-' || c == '+' || c == '.' || c == 'e' || c == 'E'

mutual

/-- Modelled from the spec: langchain's `JsonOutputParser` (library code,
not in `src/`) parses the raw model response as JSON.  Fuel-based
recursive-descent parser for one JSON value; returns the value and the
remaining input. -/
def pVal : Nat → List Char → Option (Json × List Char)
  | 0, _ => none
  | fuel + 1, cs =>
    match skipWs cs with
    | [] => none
    | c :: rest =>
      if c = 'n' then
        if rest.take 3 = ['u', 'l', 'l'] then some (.null, rest.drop 3) else none
      else if c = 't' then
        if rest.take 3 = ['r', 'u', 'e'] then some (.bool true, rest.drop 3)
        else none
      else if c = 'f' then
        if rest.take 4 = ['a', 'l', 's', 'e'] then some (.bool false, rest.drop 4)
        else none
      else if c = Char.ofNat 34 then
        (scanStringLit false [] rest).map (fun p => (.str p.1, p.2))
      else if c = '[' then
        match skipWs rest with
        | ']' :: rest2 => some (.arr [], rest2)
        | rest2 => pArrElems fuel rest2 []
      else if c = Char.ofNat 123 then
        match skipWs rest with
        | d :: rest2 =>
          if d = Char.ofNat 125 then some (.obj [], rest2)
          else pObjMembers fuel (d :: rest2) []
        | [] => none
      else
        match (c :: rest).takeWhile isNumChar with
        | [] => none
        | d :: ds =>
          if d.isDigit || d = '-' then
            some (.num (d :: ds).asString, (c :: rest).dropWhile isNumChar)
          else none

/-- Array elements after the opening bracket (non-empty case). -/
def pArrElems : Nat → List Char → List Json → Option (Json × List Char)
  | 0, _, _ => none
  | fuel + 1, cs, acc =>
    match pVal fuel cs with
    | none => none
    | some (v, rest) =>
      match skipWs rest with
      | ',' :: rest2 => pArrElems fuel rest2 (v :: acc)
      | ']' :: rest2 => some (.arr (v :: acc).reverse, rest2)
      | _ => none

/-- Object members after the opening brace (non-empty case). -/
def pObjMembers : Nat → List Char → List (String × Json) →
    Option (Json × List Char)
  | 0, _, _ => none
  | fuel + 1, cs, acc =>
    match skipWs cs with
    | c :: rest =>
      if c = Char.ofNat 34 then
        match scanStringLit false [] rest with
        | some (k, r1) =>
          match skipWs r1 with
          | ':' :: r2 =>
            match pVal fuel r2 with
            | some (v, r3) =>
              match skipWs r3 with
              | ',' :: r4 => pObjMembers fuel r4 ((k, v) :: acc)
              | d :: r4 =>
                if d = Char.ofNat 125 then
                  some (.obj ((k, v) :: acc).reverse, r4)
                else none
              | [] => none
            | none => none
          | _ => none
        | none => none
      else none
    | [] => none

end

/-- Modelled from the spec: parse a raw model response as JSON, failing with
a message when the text is not a single valid JSON value. -/
def jsonParse (s : String) : Except String Json :=
  let cs := s.toList
  match pVal (2 * cs.length + 2) cs with
  | some (v, rest) =>
    if (skipWs rest).isEmpty then .ok v
    else .error ("Extra data: " ++ s)
  | none => .error ("Invalid json output: " ++ s)

/-- Whether a `jsonParse` result is a success. -/
def jsonParseOk (s : String) : Bool :=
  match jsonParse s with
  | .ok _ => true
  | .error _ => false

/-- A raw value produced by the chain for the filter closure: normally a
string (`StrOutputParser`), but the coercion code also handles non-string
values via Python truthiness. -/
inductive RawResult where
  | str (s : String)
  | boolv (b : Bool)
  | intv (n : Int)
  | nullv
deriving DecidableEq, Repr

/-- Python truthiness of a `RawResult`. -/
def pyTruthy : RawResult → Bool
  | .str s => s ≠ ""
  | .boolv b => b
  | .intv n => n ≠ 0
  | .nullv => false

/-- ASCII whitespace stripped by Python `str.strip()`. -/
def isPySpace (c : Char) : Bool :=
  c == Char.ofNat 32 || c == Char.ofNat 9 || c == Char.ofNat 10 ||
    c == Char.ofNat 13 || c == Char.ofNat 11 || c == Char.ofNat 12

/-- Model of Python `str.strip()`: drops leading and trailing whitespace. -/
def pyStrip (s : String) : String :=
  (((s.toList.dropWhile isPySpace).reverse.dropWhile isPySpace).reverse).asString

/-- Model of Python `str.lower()` on the ASCII range. -/
def pyLower (s : String) : String :=
  (s.toList.map (fun c =>
    if 65 ≤ c.toNat && c.toNat ≤ 90 then Char.ofNat (c.toNat + 32) else c)).asString

/-- Model of the boolean coercion inside `filter_text` (`core.py`): a
string is stripped, lower-cased and compared against "yes"/"true"/"1";
anything else goes through `bool(...)`. -/
def filterCoerce (r : RawResult) : Bool :=
  match r with
  | .str s =>
    let t := pyLower (pyStrip s)
    t == "yes" || t == "true" || t == "1"
  | r => pyTruthy r

/-- The outcome of one underlying chain invocation: either a provider
response carrying its `llm_output` payload and the raw parsed value, or an
exception raised during the remote call. -/
inductive CallOutcome (α : Type) where
  | success (llmOut : Option LLMOutput) (raw : α)
  | failure (e : PyError)

/-- The body of the `parse` closure applied to a successful chain result:
`JsonOutputParser` output passes through unchanged; a JSON failure is
caught by the `except` clause and re-raised as
`ValueError("Failed to parse text: ...")`. -/
def parseStep (raw : String) : Except PyError Json :=
  match jsonParse raw with
  | .ok j => .ok j
  | .error m => .error { etype := "ValueError", msg := "Failed to parse text: " ++ m }

/-- Model of one invocation of the `parse` closure returned by `get_parser`,
together with the callback-driven logging performed during `chain.invoke`
(modelled from the spec: the langchain framework, not in `src/`, invokes
`on_llm_end` once on success and `on_llm_error` once on failure).  Any
exception from the remote call is re-raised as
`ValueError("Failed to parse text: ...")`. -/
def parse_run (writeFails : Bool) (fn : String) (co : CallOutcome String)
    (st : LogState) : Except PyError Json × LogState :=
  match co with
  | .success out raw => (parseStep raw, on_llm_end writeFails fn out st)
  | .failure e =>
    (.error { etype := "ValueError", msg := "Failed to parse text: " ++ e.msg },
      on_llm_error writeFails fn e st)

/-- Model of one invocation of the `filter_text` closure returned by
`get_filter`, with the same logging model as `parse_run`.  A successful
chain result is coerced to a boolean (total); a remote failure is re-raised
as `ValueError("Failed to filter text: ...")`. -/
def filter_run (writeFails : Bool) (fn : String) (co : CallOutcome RawResult)
    (st : LogState) : Except PyError Bool × LogState :=
  match co with
  | .success out raw => (.ok (filterCoerce raw), on_llm_end writeFails fn out st)
  | .failure e =>
    (.error { etype := "ValueError", msg := "Failed to filter text: " ++ e.msg },
      on_llm_error writeFails fn e st)

/-- Model of one invocation of the `parse_html` closure returned by
`get_html_parser`: converts the HTML via the extraction adapter, then runs
the standard parser closure; any exception from either step is caught and
re-raised as `ValueError("Failed to parse HTML content: ...")`. -/
def parse_html_run {α : Type} (h2t : α → Except PyError String)
    (inner : String → Except PyError Json) (html_content : α) :
    Except PyError Json :=
  match h2t html_content with
  | .error e =>
    .error { etype := "ValueError", msg := "Failed to parse HTML content: " ++ e.msg }
  | .ok txt =>
    match inner txt with
    | .ok j => .ok j
    | .error e =>
      .error { etype := "ValueError"
               msg := "Failed to parse HTML content: " ++ e.msg }

/-- Model of one invocation of the `parse_pdf` closure returned by
`get_pdf_parser`, analogous to `parse_html_run`. -/
def parse_pdf_run {α : Type} (p2t : α → Except PyError String)
    (inner : String → Except PyError Json) (pdf_content : α) :
    Except PyError Json :=
  match p2t pdf_content with
  | .error e =>
    .error { etype := "ValueError", msg := "Failed to parse PDF content: " ++ e.msg }
  | .ok txt =>
    match inner txt with
    | .ok j => .ok j
    | .error e =>
      .error { etype := "ValueError"
               msg := "Failed to parse PDF content: " ++ e.msg }

/-- C2: the boolean coercion performed by the `filter_text` closure is total
on successful upstream calls: a string result is stripped and lower-cased
then mapped to `true` exactly on "yes"/"true"/"1" (and to `false` on every
other string, the empty string included); a non-string boolean result is
coerced by truthiness, so `true` maps to `true`.  Includes the spec's test
vector. -/
theorem filter_boolean_coercion_total :
    (∀ (writeFails : Bool) (fn : String) (out : Option LLMOutput)
      (r : RawResult) (st : LogState),
      (filter_run writeFails fn (.success out r) st).1 = .ok (filterCoerce r)) ∧
    (∀ s : String, filterCoerce (.str s) =
      (pyLower (pyStrip s) == "yes" || pyLower (pyStrip s) == "true" ||
        pyLower (pyStrip s) == "1")) ∧
    (∀ b : Bool, filterCoerce (.boolv b) = b) ∧
    filterCoerce (.str "YES") = true ∧
    filterCoerce (.str "no") = false ∧
    filterCoerce (.str " True ") = true ∧
    filterCoerce (.str "") = false ∧
    filterCoerce (.boolv true) = true := by
  refine ⟨fun _ _ _ _ _ => rfl, fun s => rfl, fun b => rfl, ?_, ?_, ?_, ?_, rfl⟩ <;>
    decide

/-- C3: on a successful upstream call, the `parse` closure raises a
`ValueError` (the spec's `ParseError`) when the response is not valid JSON
— never returning a partial object — and returns the parsed value unchanged
when the response is valid JSON of any shape. -/
theorem parse_closure_json_contract (writeFails : Bool) (fn : String)
    (out : Option LLMOutput) (raw : String) (st : LogState) :
    (∀ m, jsonParse raw = .error m →
      (parse_run writeFails fn (.success out raw) st).1 =
        .error { etype := "ValueError", msg := "Failed to parse text: " ++ m }) ∧
    (∀ j, jsonParse raw = .ok j →
      (parse_run writeFails fn (.success out raw) st).1 = .ok j) := by
  constructor
  · intro m hm
    simp [parse_run, parseStep, hm]
  · intro j hj
    simp [parse_run, parseStep, hj]

/-- Witness for C3 at concrete responses: "[1, 2" is not valid JSON and
yields the wrapped error; "[1, true]" is valid JSON and passes through
unchanged. -/
theorem parse_closure_json_contract_witness :
    (jsonParse "[1, 2" = .error "Invalid json output: [1, 2" ∧
      (parse_run false "parser"
        (.success none "[1, 2") { lines := [], diagnostics := [] }).1 =
        .error { etype := "ValueError"
                 msg := "Failed to parse text: Invalid json output: [1, 2" }) ∧
    (jsonParse "[1, true]" = .ok (.arr [.num "1", .bool true]) ∧
      (parse_run false "parser"
        (.success none "[1, true]") { lines := [], diagnostics := [] }).1 =
        .ok (.arr [.num "1", .bool true])) :=
  ⟨⟨rfl,
    (parse_closure_json_contract false "parser" none "[1, 2"
      { lines := [], diagnostics := [] }).1 "Invalid json output: [1, 2" rfl⟩,
   ⟨rfl,
    (parse_closure_json_contract false "parser" none "[1, true]"
      { lines := [], diagnostics := [] }).2 (.arr [.num "1", .bool true]) rfl⟩⟩

/-- C4: an exception raised during the underlying remote call is caught by
both closures and re-raised as a `ValueError` (the spec's
`InvocationError`) whose text embeds the original exception's message; the
caller sees this wrapper type, never the provider-internal exception
type carried in `e.etype`. -/
theorem remote_failures_become_invocation_errors (writeFails : Bool)
    (fn : String) (e : PyError) (st : LogState) :
    (parse_run writeFails fn (.failure e) st).1 =
      .error { etype := "ValueError", msg := "Failed to parse text: " ++ e.msg } ∧
    (filter_run writeFails fn (.failure e) st).1 =
      .error { etype := "ValueError", msg := "Failed to filter text: " ++ e.msg } :=
  ⟨rfl, rfl⟩

/-- C5 counterexample: a successful remote call whose response carries no
`llm_output` payload (here `None`, and likewise an empty payload) returns
its result while emitting zero records to the usage log — not exactly
one record per call. -/
theorem successful_call_without_llm_output_logs_nothing :
    (parse_run false "parser" (.success none "null")
      { lines := [], diagnostics := [] }).1 = .ok .null ∧
    (parse_run false "parser" (.success none "null")
      { lines := [], diagnostics := [] }).2 =
      { lines := [], diagnostics := [] } ∧
    (parse_run false "parser"
      (.success (some { model_name := none, token_usage := none }) "null")
      { lines := [], diagnostics := [] }).2 =
      { lines := [], diagnostics := [] } :=
  ⟨rfl, rfl, rfl⟩

/-- C5 amended: on every failed remote call exactly one error record is
emitted; on every successful call exactly one token-usage record is emitted
when the response's `llm_output` is truthy (present and non-empty), and
none otherwise. -/
theorem usage_logging_record_counts (fn : String) (e : PyError)
    (o : LLMOutput) (raw : String) (rawF : RawResult) (st : LogState) :
    ((parse_run false fn (.failure e) st).2.lines =
      st.lines ++ [.error fn e.msg e.etype]) ∧
    ((filter_run false fn (.failure e) st).2.lines =
      st.lines ++ [.error fn e.msg e.etype]) ∧
    ((parse_run false fn (.success (some o) raw) st).2.lines =
      if llmOutputTruthy (some o) then st.lines ++ [usageRecordOf fn o]
      else st.lines) ∧
    ((parse_run false fn (.success none raw) st).2.lines = st.lines) ∧
    ((filter_run false fn (.success (some o) rawF) st).2.lines =
      if llmOutputTruthy (some o) then st.lines ++ [usageRecordOf fn o]
      else st.lines) := by
  refine ⟨rfl, rfl, ?_, rfl, ?_⟩ <;>
    · simp only [parse_run, filter_run, on_llm_end]
      by_cases h : llmOutputTruthy (some o) <;> simp [h, log_to_file]

/-- C6: a failure while writing a usage record is caught inside
`log_to_file`, reported to the diagnostic channel and discarded — the log
file is untouched, no exception escapes (the function is total), and the
primary result or primary error of the logged operation is unchanged. -/
theorem logging_failures_never_propagate (d : Record) (st : LogState)
    (fn : String) (coP : CallOutcome String) (coF : CallOutcome RawResult)
    (writeFails : Bool) :
    log_to_file true d st =
      { lines := st.lines, diagnostics := st.diagnostics ++ [d] } ∧
    log_to_file false d st =
      { lines := st.lines ++ [d], diagnostics := st.diagnostics } ∧
    (parse_run writeFails fn coP st).1 = (parse_run false fn coP st).1 ∧
    (filter_run writeFails fn coF st).1 = (filter_run false fn coF st).1 :=
  ⟨rfl, rfl, by cases coP <;> rfl, by cases coF <;> rfl⟩

/-- C7 counterexample: an `ExtractionError` raised by the extraction
adapter is not surfaced verbatim by the html/pdf closures — the caller
receives a different exception (a wrapping `ValueError`), not the same
exception with the same message. -/
theorem extraction_error_not_surfaced_verbatim :
    (parse_html_run (fun _ : Unit => .error { etype := "ExtractionError", msg := "bad html" })
        (fun _ => .ok .null) () ≠
      .error { etype := "ExtractionError", msg := "bad html" }) ∧
    (parse_pdf_run (fun _ : Unit => .error { etype := "ExtractionError", msg := "bad pdf" })
        (fun _ => .ok .null) () ≠
      .error { etype := "ExtractionError", msg := "bad pdf" }) := by
  constructor <;> exact fun h => absurd (Except.error.inj h) (by decide)

/-- C7 amended: when the extraction adapter fails, the html/pdf closures
catch the extraction error and re-raise a `ValueError` whose message is the
original message behind "Failed to parse HTML content: " (resp.
"Failed to parse PDF content: "): the message is preserved but the
exception type is replaced by the wrapper's. -/
theorem extraction_error_wrapped_with_message {α : Type}
    (h2t p2t : α → Except PyError String) (inner : String → Except PyError Json)
    (content : α) (e : PyError) :
    (h2t content = .error e →
      parse_html_run h2t inner content =
        .error { etype := "ValueError"
                 msg := "Failed to parse HTML content: " ++ e.msg }) ∧
    (p2t content = .error e →
      parse_pdf_run p2t inner content =
        .error { etype := "ValueError"
                 msg := "Failed to parse PDF content: " ++ e.msg }) := by
  constructor
  · intro h; simp [parse_html_run, h]
  · intro h; simp [parse_pdf_run, h]

/-- Witness for the amended C7 at a concrete failing extraction. -/
theorem extraction_error_wrapped_with_message_witness :
    ((fun _ : Unit => (.error { etype := "ExtractionError", msg := "bad html" } :
        Except PyError String)) () =
      .error { etype := "ExtractionError", msg := "bad html" }) ∧
    parse_html_run
      (fun _ : Unit => .error { etype := "ExtractionError", msg := "bad html" })
      (fun _ => .ok .null) () =
      .error { etype := "ValueError"
               msg := "Failed to parse HTML content: bad html" } ∧
    parse_pdf_run
      (fun _ : Unit => .error { etype := "ExtractionError", msg := "bad pdf" })
      (fun _ => .ok .null) () =
      .error { etype := "ValueError"
               msg := "Failed to parse PDF content: bad pdf" } :=
  ⟨rfl,
   (extraction_error_wrapped_with_message
      (fun _ : Unit => .error { etype := "ExtractionError", msg := "bad html" })
      (fun _ => .error { etype := "ExtractionError", msg := "bad pdf" })
      (fun _ => .ok .null) ()
      { etype := "ExtractionError", msg := "bad html" }).1 rfl,
   (extraction_error_wrapped_with_message
      (fun _ : Unit => .error { etype := "ExtractionError", msg := "bad html" })
      (fun _ => .error { etype := "ExtractionError", msg := "bad pdf" })
      (fun _ => .ok .null) ()
      { etype := "ExtractionError", msg := "bad pdf" }).2 rfl⟩

/-- C10: for a successful call whose response carries a truthy `llm_output`
payload, the usage record is still written when individual fields are
missing: absent token counts default to 0, an absent model name defaults to
"unknown", and the logging step returns normally. -/
theorem usage_record_defaults_on_missing_fields (fn : String) (o : LLMOutput)
    (st : LogState) (h : llmOutputTruthy (some o) = true) :
    on_llm_end false fn (some o) st =
      { lines := st.lines ++
          [Record.usage fn (o.model_name.getD "unknown")
            ((o.token_usage.getD
              { prompt_tokens := none, completion_tokens := none
                total_tokens := none }).prompt_tokens.getD 0)
            ((o.token_usage.getD
              { prompt_tokens := none, completion_tokens := none
                total_tokens := none }).completion_tokens.getD 0)
            ((o.token_usage.getD
              { prompt_tokens := none, completion_tokens := none
                total_tokens := none }).total_tokens.getD 0)]
        diagnostics := st.diagnostics } := by
  simp [on_llm_end, h, log_to_file, usageRecordOf]

/-- Witness for C10: a payload holding only a model name logs a record with
zero token counts; a payload holding only a prompt-token count logs a
record with model "unknown". -/
theorem usage_record_defaults_on_missing_fields_witness :
    llmOutputTruthy (some { model_name := some "gpt-4o", token_usage := none }) =
      true ∧
    on_llm_end false "parser"
      (some { model_name := some "gpt-4o", token_usage := none })
      { lines := [], diagnostics := [] } =
      { lines := [Record.usage "parser" "gpt-4o" 0 0 0], diagnostics := [] } ∧
    on_llm_end false "filter"
      (some { model_name := none
              token_usage := some { prompt_tokens := some 5
                                    completion_tokens := none
                                    total_tokens := none } })
      { lines := [], diagnostics := [] } =
      { lines := [Record.usage "filter" "unknown" 5 0 0], diagnostics := [] } :=
  ⟨by decide,
   usage_record_defaults_on_missing_fields "parser"
     { model_name := some "gpt-4o", token_usage := none }
     { lines := [], diagnostics := [] } (by decide),
   usage_record_defaults_on_missing_fields "filter"
     { model_name := none
       token_usage := some { prompt_tokens := some 5, completion_tokens := none
                             total_tokens := none } }
     { lines := [], diagnostics := [] } (by decide)⟩

/-- C9 counterexample: the client constructed for provider "anthropic" is
built without the shared rate limiter, so its underlying calls do not
acquire a token from it — the claim's "for both providers, no call ever
bypasses the limiter" fails at this concrete configuration. -/
theorem anthropic_client_bypasses_rate_limiter :
    (create_llm "claude-3-opus" "anthropic" 0 "parser" none
      { openaiKey := none, llmTokenLogFile := none }).map
        (fun llm => llm.rateLimiter) = .ok none ∧
    (create_llm "claude-3-opus" "anthropic" 0 "parser" none
      { openaiKey := none, llmTokenLogFile := none }).map
        acquiresRateLimiter = .ok false :=
  ⟨rfl, rfl⟩

/-- C9 amended: the shared limiter is the process-wide token bucket with
burst capacity 5, refill 500 requests/second and a 0.1-second admission
check, and it is attached to — and so acquired by — every client built for
provider "openai" only; clients built for provider "anthropic" carry no
rate limiter and their calls do not pass through it. -/
theorem openai_only_rate_limiter_binding (model : String) (t : Rat)
    (fn : String) (lf : Option String) (env : Env) :
    rate_limiter.maxBucketSize = 5 ∧
    rate_limiter.requestsPerSecond = 500 ∧
    rate_limiter.checkEveryNSeconds = 1 / 10 ∧
    (∀ llm, create_llm model "openai" t fn lf env = .ok llm →
      llm.rateLimiter = some rate_limiter ∧ acquiresRateLimiter llm = true) ∧
    (∀ llm, create_llm model "anthropic" t fn lf env = .ok llm →
      llm.rateLimiter = none ∧ acquiresRateLimiter llm = false) := by
  refine ⟨rfl, rfl, rfl, ?_, ?_⟩
  · intro llm h
    unfold create_llm at h
    cases hkey : strTruthy env.openaiKey <;> simp [hkey] at h
    cases h
    exact ⟨rfl, rfl⟩
  · intro llm h
    unfold create_llm at h
    simp at h
    cases h
    exact ⟨rfl, rfl⟩

/-- Witness for the amended C9 at two concrete configurations. -/
theorem openai_only_rate_limiter_binding_witness :
    (∃ llm, create_llm "gpt-3.5-turbo" "openai" 0 "parser" none
        { openaiKey := some "sk-test", llmTokenLogFile := none } = .ok llm ∧
      llm.rateLimiter = some rate_limiter ∧ acquiresRateLimiter llm = true) ∧
    (∃ llm, create_llm "claude-3" "anthropic" 0 "filter" none
        { openaiKey := none, llmTokenLogFile := none } = .ok llm ∧
      llm.rateLimiter = none ∧ acquiresRateLimiter llm = false) :=
  ⟨⟨_, rfl,
    ((openai_only_rate_limiter_binding "gpt-3.5-turbo" 0 "parser" none
        { openaiKey := some "sk-test", llmTokenLogFile := none }).2.2.2.1 _ rfl).1,
    ((openai_only_rate_limiter_binding "gpt-3.5-turbo" 0 "parser" none
        { openaiKey := some "sk-test", llmTokenLogFile := none }).2.2.2.1 _ rfl).2⟩,
   ⟨_, rfl,
    ((openai_only_rate_limiter_binding "claude-3" 0 "filter" none
        { openaiKey := none, llmTokenLogFile := none }).2.2.2.2 _ rfl).1,
    ((openai_only_rate_limiter_binding "claude-3" 0 "filter" none
        { openaiKey := none, llmTokenLogFile := none }).2.2.2.2 _ rfl).2⟩⟩

/-- Modelled from the spec: the standard base64 alphabet byte for a sextet
(Python `base64` module, not part of `src/`). -/
def b64ch (v : Nat) : Nat :=
  if v < 26 then 65 + v
  else if v < 52 then 97 + (v - 26)
  else if v < 62 then 48 + (v - 52)
  else if v = 62 then 43
  else 47

/-- Modelled from the spec: the sextet value of a standard-alphabet byte,
`none` for a byte outside the alphabet. -/
def b64val (b : Nat) : Option Nat :=
  if 65 ≤ b ∧ b ≤ 90 then some (b - 65)
  else if 97 ≤ b ∧ b ≤ 122 then some (b - 97 + 26)
  else if 48 ≤ b ∧ b ≤ 57 then some (b - 48 + 52)
  else if b = 43 then some 62
  else if b = 47 then some 63
  else none

/-- Modelled from the spec: standard base64 encoding of a byte string
(`base64.b64encode`), with `=` (byte 61) padding. -/
def b64encode : List Nat → List Nat
  | [] => []
  | [b1] => [b64ch (b1 / 4), b64ch (b1 % 4 * 16), 61, 61]
  | [b1, b2] => [b64ch (b1 / 4), b64ch (b1 % 4 * 16 + b2 / 16),
      b64ch (b2 % 16 * 4), 61]
  | b1 :: b2 :: b3 :: rest =>
    b64ch (b1 / 4) :: b64ch (b1 % 4 * 16 + b2 / 16) ::
      b64ch (b2 % 16 * 4 + b3 / 64) :: b64ch (b3 % 64) :: b64encode rest

/-- Modelled from the spec: validating base64 decoding
(`base64.b64decode(..., validate=True)`): any byte outside the alphabet and
the padding byte fails, as does a length that is not a multiple of four. -/
def b64decodeV : List Nat → Option (List Nat)
  | [] => some []
  | [_] => none
  | [_, _] => none
  | [_, _, _] => none
  | c1 :: c2 :: c3 :: c4 :: rest =>
    match b64val c1, b64val c2 with
    | some v1, some v2 =>
      if c3 = 61 then
        if c4 = 61 then
          if rest = [] then some [v1 * 4 + v2 / 16] else none
        else none
      else
        match b64val c3 with
        | some v3 =>
          if c4 = 61 then
            if rest = [] then some [v1 * 4 + v2 / 16, v2 % 16 * 16 + v3 / 4]
            else none
          else
            match b64val c4 with
            | some v4 =>
              (b64decodeV rest).map
                (fun bs => (v1 * 4 + v2 / 16) :: (v2 % 16 * 16 + v3 / 4) ::
                  (v3 % 4 * 64 + v4) :: bs)
            | none => none
        | none => none
    | _, _ => none

/-- The byte substitution performed by URL-safe base64 encoding:
`+` becomes `-` and `/` becomes `_`. -/
def toUrlsafe (b : Nat) : Nat :=
  if b = 43 then 45 else if b = 47 then 95 else b

/-- The byte substitution performed by `pdf2text`'s URL-safe repair:
`.replace("-", "+").replace("_", "/")`. -/
def fromUrlsafe (b : Nat) : Nat :=
  if b = 45 then 43 else if b = 95 then 47 else b

/-- Modelled from the spec: `base64.urlsafe_b64encode`. -/
def urlsafe_b64encode (bs : List Nat) : List Nat :=
  (b64encode bs).map toUrlsafe

/-- Model of the URL-safe fallback inside `pdf2text`
(`text_conversion.py`): requires the input to decode as ASCII, substitutes
the URL-safe alphabet back, repairs missing padding, then decodes with
validation. -/
def urlsafeRepairDecode (content : List Nat) : Option (List Nat) :=
  if content.all (fun b => b < 128) then
    let s := content.map fromUrlsafe
    let s2 := if s.length % 4 = 0 then s
      else s ++ List.replicate (4 - s.length % 4) 61
    b64decodeV s2
  else none

/-- Model of `pdf2text` from `text_conversion.py`, parameterized by the
page-text extraction collaborator (`pdfplumber`, external): auto-detects
the input encoding by attempting standard base64, then URL-safe base64 with
padding repair, then falling back to raw bytes; extraction errors propagate
verbatim (the source's `except` clause re-raises the original exception). -/
def pdf2text (extract : List Nat → Except PyError String)
    (pdf_content : List Nat) : Except PyError String :=
  let pdf_bytes :=
    match b64decodeV pdf_content with
    | some bs => bs
    | none =>
      match urlsafeRepairDecode pdf_content with
      | some bs => bs
      | none => pdf_content
  extract pdf_bytes

/-- Alphabet bytes invert correctly. -/
theorem b64val_b64ch : ∀ v, v < 64 → b64val (b64ch v) = some v := by decide

/-- Alphabet bytes are ASCII and are never the URL-safe substitutes nor the
padding byte. -/
theorem b64ch_props (v : Nat) :
    b64ch v < 128 ∧ b64ch v ≠ 45 ∧ b64ch v ≠ 95 ∧ b64ch v ≠ 61 := by
  unfold b64ch
  split_ifs <;> omega

/-- Every byte of a standard base64 encoding is ASCII and is none of `-`,
`_`, `%`. -/
theorem b64encode_mem_props (bs : List Nat) :
    ∀ x ∈ b64encode bs, x < 128 ∧ x ≠ 45 ∧ x ≠ 95 := by
  induction bs using b64encode.induct with
  | case1 => intro x hx; simp [b64encode] at hx
  | case2 b1 =>
    intro x hx
    simp [b64encode] at hx
    rcases hx with rfl | rfl | rfl <;>
      first
        | exact ⟨(b64ch_props _).1, (b64ch_props _).2.1, (b64ch_props _).2.2.1⟩
        | omega
  | case3 b1 b2 =>
    intro x hx
    simp [b64encode] at hx
    rcases hx with rfl | rfl | rfl | rfl <;>
      first
        | exact ⟨(b64ch_props _).1, (b64ch_props _).2.1, (b64ch_props _).2.2.1⟩
        | omega
  | case4 b1 b2 b3 rest ih =>
    intro x hx
    simp only [b64encode, List.mem_cons] at hx
    rcases hx with rfl | rfl | rfl | rfl | hx
    · exact ⟨(b64ch_props _).1, (b64ch_props _).2.1, (b64ch_props _).2.2.1⟩
    · exact ⟨(b64ch_props _).1, (b64ch_props _).2.1, (b64ch_props _).2.2.1⟩
    · exact ⟨(b64ch_props _).1, (b64ch_props _).2.1, (b64ch_props _).2.2.1⟩
    · exact ⟨(b64ch_props _).1, (b64ch_props _).2.1, (b64ch_props _).2.2.1⟩
    · exact ih x hx

/-- A standard base64 encoding always has length a multiple of four. -/
theorem b64encode_length_mod4 (bs : List Nat) :
    (b64encode bs).length % 4 = 0 := by
  induction bs using b64encode.induct with
  | case1 => simp [b64encode]
  | case2 b1 => simp [b64encode]
  | case3 b1 b2 => simp [b64encode]
  | case4 b1 b2 b3 rest ih => simp [b64encode]; omega

/-- Validating decode inverts encode on byte strings. -/
theorem b64decodeV_b64encode (bs : List Nat) (h : ∀ b ∈ bs, b < 256) :
    b64decodeV (b64encode bs) = some bs := by
  induction bs using b64encode.induct with
  | case1 => simp [b64encode, b64decodeV]
  | case2 b1 =>
    have hb1 : b1 < 256 := h b1 (by simp)
    have h1 : b1 / 4 < 64 := by omega
    have h2 : b1 % 4 * 16 < 64 := by omega
    simp [b64encode, b64decodeV, b64val_b64ch _ h1, b64val_b64ch _ h2]
    omega
  | case3 b1 b2 =>
    have hb1 : b1 < 256 := h b1 (by simp)
    have hb2 : b2 < 256 := h b2 (by simp)
    have h1 : b1 / 4 < 64 := by omega
    have h2 : b1 % 4 * 16 + b2 / 16 < 64 := by omega
    have h3 : b2 % 16 * 4 < 64 := by omega
    simp [b64encode, b64decodeV, b64val_b64ch _ h1, b64val_b64ch _ h2,
      b64val_b64ch _ h3, (b64ch_props (b2 % 16 * 4)).2.2.2]
    constructor <;> omega
  | case4 b1 b2 b3 rest ih =>
    have hb1 : b1 < 256 := h b1 (by simp)
    have hb2 : b2 < 256 := h b2 (by simp)
    have hb3 : b3 < 256 := h b3 (by simp)
    have h1 : b1 / 4 < 64 := by omega
    have h2 : b1 % 4 * 16 + b2 / 16 < 64 := by omega
    have h3 : b2 % 16 * 4 + b3 / 64 < 64 := by omega
    have h4 : b3 % 64 < 64 := by omega
    have hrest := ih (fun b hb => h b (by simp [hb]))
    simp [b64encode, b64decodeV, b64val_b64ch _ h1, b64val_b64ch _ h2,
      b64val_b64ch _ h3, b64val_b64ch _ h4,
      (b64ch_props (b2 % 16 * 4 + b3 / 64)).2.2.2,
      (b64ch_props (b3 % 64)).2.2.2, hrest]
    refine ⟨by omega, by omega, by omega⟩

/-- A byte outside the standard alphabet that is not the padding byte makes
validating decode fail wherever it occurs. -/
theorem b64decodeV_none_of_invalid (b : Nat) (hval : b64val b = none)
    (hne : b ≠ 61) : ∀ bs, b ∈ bs → b64decodeV bs = none
  | [], h => by simp at h
  | [_], _ => by simp [b64decodeV]
  | [_, _], _ => by simp [b64decodeV]
  | [_, _, _], _ => by simp [b64decodeV]
  | c1 :: c2 :: c3 :: c4 :: rest, hmem => by
    simp only [List.mem_cons] at hmem
    rcases hmem with rfl | rfl | rfl | rfl | hm
    · simp only [b64decodeV, hval]
    · cases hv1 : b64val c1 <;> simp only [b64decodeV, hv1, hval]
    · cases hv1 : b64val c1 <;> cases hv2 : b64val c2 <;>
        simp only [b64decodeV, hv1, hv2]
      rw [if_neg hne]
      simp only [hval]
    · cases hv1 : b64val c1 <;> cases hv2 : b64val c2 <;>
        simp only [b64decodeV, hv1, hv2]
      by_cases h3 : c3 = 61
      · rw [if_pos h3, if_neg hne]
      · rw [if_neg h3]
        cases hv3 : b64val c3 <;> simp only [hv3]
        rw [if_neg hne]
        simp only [hval]
    · have hrest : b64decodeV rest = none :=
        b64decodeV_none_of_invalid b hval hne rest hm
      have hnil : rest ≠ [] := List.ne_nil_of_mem hm
      cases hv1 : b64val c1 <;> cases hv2 : b64val c2 <;>
        simp only [b64decodeV, hv1, hv2]
      by_cases h3 : c3 = 61
      · rw [if_pos h3]
        by_cases h4 : c4 = 61
        · rw [if_pos h4, if_neg hnil]
        · rw [if_neg h4]
      · rw [if_neg h3]
        cases hv3 : b64val c3 <;> simp only [hv3]
        by_cases h4 : c4 = 61
        · rw [if_pos h4, if_neg hnil]
        · rw [if_neg h4]
          cases hv4 : b64val c4 <;> simp only [hv4]
          simp only [hrest, Option.map_none']

/-- The URL-safe substitution is undone by the repair substitution on
strings free of `-` and `_`. -/
theorem map_fromUrl_map_toUrl (l : List Nat)
    (h : ∀ x ∈ l, x ≠ 45 ∧ x ≠ 95) :
    (l.map toUrlsafe).map fromUrlsafe = l := by
  induction l with
  | nil => rfl
  | cons x xs ih =>
    have hx := h x (by simp)
    have hxs := ih (fun y hy => h y (by simp [hy]))
    simp only [List.map_cons, hxs, List.cons.injEq]
    refine ⟨?_, trivial⟩
    unfold toUrlsafe fromUrlsafe
    split_ifs <;> omega

/-- When the URL-safe image contains neither `-` nor `_`, the substitution
was the identity. -/
theorem map_toUrl_eq_self (l : List Nat) (h45 : (45 : Nat) ∉ l.map toUrlsafe)
    (h95 : (95 : Nat) ∉ l.map toUrlsafe) : l.map toUrlsafe = l := by
  induction l with
  | nil => rfl
  | cons x xs ih =>
    simp only [List.map_cons, List.mem_cons, not_or] at h45 h95
    simp only [List.map_cons, ih h45.2 h95.2, List.cons.injEq]
    refine ⟨?_, trivial⟩
    by_cases h43 : x = 43
    · exact absurd (by simp [toUrlsafe, h43]) h45.1
    · by_cases h47 : x = 47
      · exact absurd (by simp [toUrlsafe, h43, h47]) h95.1
      · simp [toUrlsafe, h43, h47]

/-- C8: `pdf2text` applied to the URL-safe base64 encoding of a raw PDF
byte string extracts the same text as `pdf2text` applied to the raw bytes.
A "raw PDF byte string" is captured by containing byte 37 (the `%` of the
mandatory `%PDF` header), which lies outside both base64 alphabets, so the
raw bytes themselves survive both decode attempts untouched; the decoding
of the encoded form is auto-detected by attempting standard decode, then
URL-safe decode with padding repair. -/
theorem pdf2text_urlsafe_roundtrip (extract : List Nat → Except PyError String)
    (raw : List Nat) (t : String) (hbytes : ∀ x ∈ raw, x < 256)
    (hpct : 37 ∈ raw) (hok : pdf2text extract raw = .ok t) :
    pdf2text extract (urlsafe_b64encode raw) = .ok t := by
  have hval37 : b64val 37 = none := by decide
  have hne37 : (37 : Nat) ≠ 61 := by decide
  have hstd_raw : b64decodeV raw = none :=
    b64decodeV_none_of_invalid 37 hval37 hne37 raw hpct
  have hurl_raw : urlsafeRepairDecode raw = none := by
    unfold urlsafeRepairDecode
    by_cases hall : raw.all (fun b => b < 128)
    · rw [if_pos hall]
      have hmem1 : (37 : Nat) ∈ raw.map fromUrlsafe :=
        List.mem_map.mpr ⟨37, hpct, by decide⟩
      by_cases hm : (raw.map fromUrlsafe).length % 4 = 0
      · simp only [hm, if_true]
        exact b64decodeV_none_of_invalid 37 hval37 hne37 _ hmem1
      · simp only [hm, if_false]
        exact b64decodeV_none_of_invalid 37 hval37 hne37 _
          (List.mem_append_left _ hmem1)
    · rw [if_neg hall]
  have hraw_eq : pdf2text extract raw = extract raw := by
    simp only [pdf2text, hstd_raw, hurl_raw]
  rw [hraw_eq] at hok
  have hprops := b64encode_mem_props raw
  have hdec_enc : b64decodeV (b64encode raw) = some raw :=
    b64decodeV_b64encode raw hbytes
  by_cases hmem : (45 ∈ urlsafe_b64encode raw ∨ 95 ∈ urlsafe_b64encode raw)
  · have hstd : b64decodeV (urlsafe_b64encode raw) = none := by
      rcases hmem with h | h
      · exact b64decodeV_none_of_invalid 45 (by decide) (by decide) _ h
      · exact b64decodeV_none_of_invalid 95 (by decide) (by decide) _ h
    have hall : (urlsafe_b64encode raw).all (fun b => b < 128) = true := by
      rw [List.all_eq_true]
      intro x hx
      obtain ⟨y, hy, rfl⟩ := List.mem_map.mp hx
      have hy128 := (hprops y hy).1
      simp only [decide_eq_true_eq]
      unfold toUrlsafe
      split_ifs <;> omega
    have hfrom : (urlsafe_b64encode raw).map fromUrlsafe = b64encode raw := by
      unfold urlsafe_b64encode
      exact map_fromUrl_map_toUrl _
        (fun x hx => ⟨(hprops x hx).2.1, (hprops x hx).2.2⟩)
    have hurl : urlsafeRepairDecode (urlsafe_b64encode raw) = some raw := by
      unfold urlsafeRepairDecode
      rw [if_pos hall]
      simp only [hfrom, b64encode_length_mod4 raw, if_true, hdec_enc]
    simp only [pdf2text, hstd, hurl]
    exact hok
  · push_neg at hmem
    have hid : urlsafe_b64encode raw = b64encode raw := by
      unfold urlsafe_b64encode at hmem ⊢
      exact map_toUrl_eq_self _ hmem.1 hmem.2
    rw [hid]
    simp only [pdf2text, hdec_enc]
    exact hok

/-- Witness for C8 at a concrete document: bytes beginning with the `%PDF`
header (37 80 68 70), one non-ASCII byte and a newline, with a mock
extraction collaborator recognizing exactly those bytes. -/
theorem pdf2text_urlsafe_roundtrip_witness :
    (∀ x ∈ ([37, 80, 68, 70, 255, 10] : List Nat), x < 256) ∧
    (37 : Nat) ∈ ([37, 80, 68, 70, 255, 10] : List Nat) ∧
    pdf2text
      (fun bs => if bs = [37, 80, 68, 70, 255, 10] then .ok "hello pdf"
        else .error { etype := "PDFSyntaxError", msg := "No PDF header" })
      [37, 80, 68, 70, 255, 10] = .ok "hello pdf" ∧
    pdf2text
      (fun bs => if bs = [37, 80, 68, 70, 255, 10] then .ok "hello pdf"
        else .error { etype := "PDFSyntaxError", msg := "No PDF header" })
      (urlsafe_b64encode [37, 80, 68, 70, 255, 10]) = .ok "hello pdf" :=
  ⟨by decide, by decide, rfl,
    pdf2text_urlsafe_roundtrip
      (fun bs => if bs = [37, 80, 68, 70, 255, 10] then .ok "hello pdf"
        else .error { etype := "PDFSyntaxError", msg := "No PDF header" })
      [37, 80, 68, 70, 255, 10] "hello pdf" (by decide) (by decide) rfl⟩
